import Mathlib

/-!
Verification of the south-bay education pipeline (code.py, geo_map.py,
visualize.py) against its specification.

The pipeline is shallowly embedded as follows.

Pandas float cells are modeled by `PVal`: a cell is missing (`nan`, which
pandas treats as null), a finite rational (`val q`, exact arithmetic in ℚ
standing for the float computation), or an infinity (`pinf` / `ninf`,
produced by float division of a nonzero numerator by zero).  The arithmetic
on `PVal` follows IEEE/pandas semantics: nan propagates, finite values
combine exactly, division of a positive (negative) finite value by zero
gives `pinf` (`ninf`), and `0 / 0` gives `nan`.

Network calls (the census API, the shapefile downloads) and library
internals (the numeric parser of pandas to_numeric, zip extraction) are
oracle parameters of the definitions that use them, so every definition
stays executable.

The file is organised as definitions first (the embedding of the source),
then theorems (general lemmas about the embedding followed by the
claim-level results).
-/

namespace SouthBayEducation

/-- Pandas float cell: missing (NaN, the null marker), finite value, or
signed infinity. -/
inductive PVal where
  | nan : PVal
  | val : ℚ → PVal
  | pinf : PVal
  | ninf : PVal
deriving DecidableEq, Repr

namespace PVal

/-- Pandas isna: NaN is the null marker; infinities are not null. -/
def isNull : PVal → Bool
  | nan => true
  | _ => false

/-- Addition of two pandas cells (IEEE semantics on the special values). -/
def add : PVal → PVal → PVal
  | nan, _ => nan
  | _, nan => nan
  | val a, val b => val (a + b)
  | val _, pinf => pinf
  | pinf, val _ => pinf
  | val _, ninf => ninf
  | ninf, val _ => ninf
  | pinf, pinf => pinf
  | ninf, ninf => ninf
  | pinf, ninf => nan
  | ninf, pinf => nan

/-- Subtraction of two pandas cells. -/
def sub : PVal → PVal → PVal
  | nan, _ => nan
  | _, nan => nan
  | val a, val b => val (a - b)
  | val _, pinf => ninf
  | val _, ninf => pinf
  | pinf, val _ => pinf
  | ninf, val _ => ninf
  | pinf, pinf => nan
  | ninf, ninf => nan
  | pinf, ninf => pinf
  | ninf, pinf => ninf

/-- Multiplication of two pandas cells. -/
def mul : PVal → PVal → PVal
  | nan, _ => nan
  | _, nan => nan
  | val a, val b => val (a * b)
  | pinf, val b => if 0 < b then pinf else if b < 0 then ninf else nan
  | val a, pinf => if 0 < a then pinf else if a < 0 then ninf else nan
  | ninf, val b => if 0 < b then ninf else if b < 0 then pinf else nan
  | val a, ninf => if 0 < a then ninf else if a < 0 then pinf else nan
  | pinf, pinf => pinf
  | ninf, ninf => pinf
  | pinf, ninf => ninf
  | ninf, pinf => ninf

/-- Division of two pandas cells.  Dividing a nonzero finite value by zero
gives a signed infinity and `0 / 0` gives NaN, exactly as numpy/pandas
float division behaves (there is no exception). -/
def div : PVal → PVal → PVal
  | nan, _ => nan
  | _, nan => nan
  | val a, val b =>
      if b = 0 then (if 0 < a then pinf else if a < 0 then ninf else nan)
      else val (a / b)
  | val _, pinf => val 0
  | val _, ninf => val 0
  | pinf, val b => if b < 0 then ninf else pinf
  | ninf, val b => if b < 0 then pinf else ninf
  | pinf, pinf => nan
  | pinf, ninf => nan
  | ninf, pinf => nan
  | ninf, ninf => nan

end PVal

/-!
Area registry (code.py lines 24 to 41): the fixed mapping from city names
to postal-area (ZCTA) identifiers.
-/

/-- The `south_bay_zips` dictionary of code.py, in source order. -/
def southBayZips : List (String × List Nat) :=
  [ ("San Jose",
      [95110, 95111, 95112, 95113, 95116, 95117, 95118, 95119, 95120,
       95121, 95122, 95123, 95124, 95125, 95126, 95127, 95128, 95129,
       95130, 95131, 95132, 95133, 95134, 95135, 95136, 95138, 95139,
       95140, 95141, 95148]),
    ("Cupertino", [95014, 95015]),
    ("Los Gatos", [95030, 95032, 95033]),
    ("Saratoga", [95070, 95071]),
    ("Mountain View", [94040, 94041, 94043]),
    ("Palo Alto", [94301, 94303, 94304, 94305, 94306]),
    ("Los Altos", [94022, 94023, 94024]),
    ("Sunnyvale", [94085, 94086, 94087, 94088, 94089]),
    ("Santa Clara", [95050, 95051, 95053, 95054]),
    ("Campbell", [95008, 95009, 95011]),
    ("Milpitas", [95035, 95036]) ]

/-- All registry identifiers in the order they appear in the registry
(the iteration order of the `south_bay_zips` dict literal). -/
def registryIds : List Nat := southBayZips.flatMap Prod.snd

/-- The `zip_to_city` dict comprehension (code.py line 49).  For a
duplicated key the later city would win, hence the reverse lookup; a key
outside the registry has no entry (modeled by the empty string, never hit
by the pipeline, which only looks up registry keys). -/
def zipToCity (z : Nat) : String :=
  ((southBayZips.reverse.find? (fun cz => cz.2.contains z)).map Prod.fst).getD ""

/-- The `zip_list = sorted(zip_to_city.keys())` of code.py line 50.  The
dict keys are `registryIds` deduplicated (they contain no duplicate, see
`registryIds_nodup`), and Python sorted is a stable comparison sort,
modeled by insertion sort. -/
def zipList : List Nat := List.insertionSort (· ≤ ·) registryIds

/-!
Metric deriver (code.py lines 72 to 87).  An `AreaRecord` is one row of
the dataframe after the `pd.to_numeric(errors="coerce")` pass: the five
count columns hold `PVal` cells (a string that failed to parse became
NaN), the identifier and the two text columns are kept as parsed values.
-/

/-- One dataframe row after numeric coercion: postal identifier, parent
city, the NAME column, and the five B15003 count cells. -/
structure AreaRecord where
  zcta : Nat
  city : String
  name : String
  total : PVal
  bach : PVal
  mast : PVal
  prof : PVal
  doct : PVal
deriving DecidableEq, Repr

/-- Column `pct_bachelor` (code.py line 75). -/
def pctBachelor (r : AreaRecord) : PVal := (r.bach.div r.total).mul (PVal.val 100)

/-- Column `pct_master` (code.py line 76). -/
def pctMaster (r : AreaRecord) : PVal := (r.mast.div r.total).mul (PVal.val 100)

/-- Column `pct_professional` (code.py line 77). -/
def pctProfessional (r : AreaRecord) : PVal := (r.prof.div r.total).mul (PVal.val 100)

/-- Column `pct_doctorate` (code.py line 78). -/
def pctDoctorate (r : AreaRecord) : PVal := (r.doct.div r.total).mul (PVal.val 100)

/-- Column `pct_bachelor_or_higher` (code.py lines 81 to 84): the summed
counts divided by the same denominator. -/
def pctBachelorOrHigher (r : AreaRecord) : PVal :=
  ((((r.bach.add r.mast).add r.prof).add r.doct).div r.total).mul (PVal.val 100)

/-- Column `pct_no_bachelors` (code.py line 87). -/
def pctNoBachelors (r : AreaRecord) : PVal :=
  (PVal.val 100).sub (pctBachelorOrHigher r)

/-- A derived cell that is the null marker or a finite value inside
[0, 100]. -/
def nullOrInRange (v : PVal) : Prop :=
  v = PVal.nan ∨ ∃ q : ℚ, v = PVal.val q ∧ 0 ≤ q ∧ q ≤ 100

/-- A raw count cell that is missing or holds a zero count. -/
def zeroOrMissing (v : PVal) : Prop := v = PVal.nan ∨ v = PVal.val 0

/-!
Statistical record fetcher (code.py lines 52 to 68).  `fetch_zcta` is an
HTTP GET followed by raise_for_status and JSON parsing; any of the three
failure modes (network error, non-2xx status, malformed body) surfaces as
a Python exception, modeled by `Except.error` with the exception text.  A
successful call yields the zipped header-to-row dict, modeled by
`AcsResp`; its `zcta` field is the value of the echoed
"zip code tabulation area" column (a five-digit code, modeled by its
numeric value).
-/

/-- One successful census API reply: the NAME column, the five raw count
cells as unparsed strings, and the echoed postal-area identifier. -/
structure AcsResp where
  name : String
  totalRaw : String
  bachRaw : String
  mastRaw : String
  profRaw : String
  doctRaw : String
  zcta : Nat
deriving DecidableEq, Repr

/-- The warning printed by the except branch of the fetch loop (code.py
line 68): it names the identifier and the error text. -/
def failMsg (z : Nat) (e : String) : String :=
  "Failed for " ++ toString z ++ ": " ++ e

/-- Result of the fetch loop: the collected per-city records, the printed
warnings, and the identifiers actually queried, each in issue order. -/
structure FetchOut where
  recs : List (String × AcsResp)
  warns : List String
  queried : List Nat
deriving DecidableEq, Repr

/-- The fetch loop of code.py lines 61 to 68: one blocking query per
identifier, in list order; a success is annotated with the parent city
and appended, a failure prints a warning and the loop continues. -/
def fetchLoop (fetch : Nat → Except String AcsResp) : List Nat → FetchOut
  | [] => ⟨[], [], []⟩
  | z :: zs =>
      let rest := fetchLoop fetch zs
      match fetch z with
      | .ok resp => ⟨(zipToCity z, resp) :: rest.recs, rest.warns, z :: rest.queried⟩
      | .error e => ⟨rest.recs, failMsg z e :: rest.warns, z :: rest.queried⟩

/-- Numeric coercion of one raw cell, `pd.to_numeric(errors="coerce")`
(code.py line 73): the parser is an oracle parameter; a parse failure
becomes the null marker instead of raising. -/
def coerce (toNum : String → Option ℚ) (s : String) : PVal :=
  match toNum s with
  | some q => PVal.val q
  | none => PVal.nan

/-- Build the dataframe row for one fetched record (code.py lines 65 and
70 to 73). -/
def mkRecord (toNum : String → Option ℚ) (city : String) (resp : AcsResp) : AreaRecord :=
  ⟨resp.zcta, city, resp.name,
   coerce toNum resp.totalRaw, coerce toNum resp.bachRaw,
   coerce toNum resp.mastRaw, coerce toNum resp.profRaw,
   coerce toNum resp.doctRaw⟩

/-!
Output artifact (code.py lines 89 to 105): select and rename exactly the
columns city, zip, NAME, total_pop_25plus, pct_bachelor, pct_master,
pct_professional, pct_doctorate, pct_bachelor_or_higher,
pct_no_bachelors, then sort_values(["city", "zip"]) and write the CSV.
In the dataframe the city and zip cells are strings; the zip strings are
the five-character zero-padded ZCTA codes, so the string sort on the zip
column is the lexicographic order of the five-digit decimal renderings.
-/

/-- One row of the written CSV, with exactly its ten columns; `zip`
holds the numeric value of the five-digit code. -/
structure OutRow where
  city : String
  zip : Nat
  name : String
  totalPop25plus : PVal
  pctBachelor : PVal
  pctMaster : PVal
  pctProfessional : PVal
  pctDoctorate : PVal
  pctBachelorOrHigher : PVal
  pctNoBachelors : PVal
deriving DecidableEq, Repr

/-- Select and rename the output columns for one record (code.py lines
89 to 103). -/
def deriveOut (r : AreaRecord) : OutRow :=
  ⟨r.city, r.zcta, r.name, r.total,
   pctBachelor r, pctMaster r, pctProfessional r, pctDoctorate r,
   pctBachelorOrHigher r, pctNoBachelors r⟩

/-- Boolean lexicographic comparison of two lists, element order first,
shorter prefix first: the order Python uses to compare two strings (by
code point) and hence the order pandas sort_values applies to a string
column. -/
def lexLE {α : Type} [LinearOrder α] : List α → List α → Bool
  | [], _ => true
  | _ :: _, [] => false
  | a :: as, b :: bs => if a < b then true else if b < a then false else lexLE as bs

/-- The five decimal digits of a ZCTA code cell, most significant first:
the characters of the fixed-width zero-padded string the source data
carries for an identifier below 100000. -/
def zipDigits (n : Nat) : List Nat :=
  [n / 10000, n / 1000 % 10, n / 100 % 10, n / 10 % 10, n % 10]

/-- String comparison of two zip cells (their five-digit renderings). -/
def zipLEb (a b : Nat) : Bool := lexLE (zipDigits a) (zipDigits b)

/-- The sort_values(["city", "zip"]) comparison: city string first, zip
string as tie-break. -/
def outLE (r s : OutRow) : Bool :=
  if r.city.data = s.city.data then zipLEb r.zip s.zip
  else lexLE r.city.data s.city.data

/-- The row order used by the artifact sort, as a relation. -/
def outRel : OutRow → OutRow → Prop := fun r s => outLE r s = true

instance : DecidableRel outRel := fun _ _ => instDecidableEqBool _ _

/-- The sorted artifact rows (code.py lines 89 to 105): derive the ten
columns per record, then sort by (city, zip).  Pandas sort_values is a
comparison sort by the (city, zip) key, modeled by insertion sort. -/
def buildOut (recs : List AreaRecord) : List OutRow :=
  List.insertionSort outRel (recs.map deriveOut)

/-- The dataframe rows built from the fetch loop output (code.py line
70). -/
def pipelineRecords (fetch : Nat → Except String AcsResp) (toNum : String → Option ℚ)
    (zs : List Nat) : List AreaRecord :=
  (fetchLoop fetch zs).recs.map (fun cr => mkRecord toNum cr.1 cr.2)

/-- The full artifact of one run over the identifier list `zs`. -/
def pipelineOut (fetch : Nat → Except String AcsResp) (toNum : String → Option ℚ)
    (zs : List Nat) : List OutRow :=
  buildOut (pipelineRecords fetch toNum zs)

/-!
Geometry loader, archive download part (geo_map.py lines 20 to 53).  The
payload of a download is its byte list; the two download strategies
(whole-body GET, then the streamed-to-disk alternative) and the zip
extraction are oracle parameters.  The try branch checks the four-byte
zip local-file-header signature before extracting; on any failure in the
try branch the except branch downloads again with the streamed strategy
and extracts without a second chance: an error there is fatal
(uncaught).
-/

/-- The four-byte zip local-file-header signature PK 03 04 (geo_map.py
line 26). -/
def zipSig : List Nat := [80, 75, 3, 4]

/-- Outcome of the shapefile download-and-extract step. -/
inductive LoadResult where
  | extractedMem : List Nat → LoadResult
  | extractedStream : List Nat → LoadResult
  | fatal : String → LoadResult
deriving DecidableEq, Repr

/-- Diagnostic printed when the signature check fails (geo_map.py line
27). -/
def invalidZipMsg : String := "Error: Downloaded file is not a valid ZIP file"

/-- Diagnostic naming the first bytes received (geo_map.py line 28). -/
def firstBytesMsg (bs : List Nat) : String :=
  "First 100 bytes: " ++ toString bs

/-- Diagnostic printed by the except branch (geo_map.py line 37). -/
def downloadErrMsg (e : String) : String :=
  "Error downloading shapefile: " ++ e

/-- The except branch (geo_map.py lines 36 to 53): one streamed download
and extraction; any failure here is fatal. -/
def retryStream (d2 : Except String (List Nat)) (ex : List Nat → Except String Unit) :
    LoadResult :=
  match d2 with
  | .error e => .fatal e
  | .ok p =>
      match ex p with
      | .error e => .fatal e
      | .ok _ => .extractedStream p

/-- The whole download-and-extract step (geo_map.py lines 20 to 53):
returns the outcome and the diagnostics printed on the way. -/
def loadShapefile (d1 d2 : Except String (List Nat)) (ex : List Nat → Except String Unit) :
    LoadResult × List String :=
  match d1 with
  | .error e => (retryStream d2 ex, [downloadErrMsg e])
  | .ok p =>
      if p.take 4 = zipSig then
        match ex p with
        | .ok _ => (.extractedMem p, [])
        | .error e => (retryStream d2 ex, [downloadErrMsg e])
      else
        (retryStream d2 ex,
         [invalidZipMsg, firstBytesMsg (p.take 100), downloadErrMsg "Invalid ZIP file"])

/-!
Geometry loader, filter part (code.py lines 119 to 124, geo_map.py lines
59 to 68).  A shapefile row carries the ZCTA5CE20 identifier as a
fixed-width character cell; astype(int) parses it to an integer (failing
on a non-digit cell, which would abort the whole column cast), and the
isin filter keeps exactly the rows whose parsed identifier is in the
registry list.
-/

/-- One nationwide shapefile row: the raw ZCTA5CE20 characters and an
abstract geometry payload. -/
structure GeoRow where
  zcta : List Char
  geom : Nat
deriving DecidableEq, Repr

/-- Parse a decimal digit character. -/
def digitVal (c : Char) : Option Nat :=
  if c.isDigit then some (c.toNat - 48) else none

/-- Accumulating decimal parse of a character cell. -/
def decodeCore (acc : Nat) : List Char → Option Nat
  | [] => some acc
  | c :: cs =>
      match digitVal c with
      | some d => decodeCore (acc * 10 + d) cs
      | none => none

/-- The astype(int) cast of one identifier cell: all-digit nonempty cells
parse (leading zeros allowed), anything else raises. -/
def astypeInt (cs : List Char) : Option Nat :=
  if cs.isEmpty then none else decodeCore 0 cs

/-- The `zcta_gdf["zip"] = zcta_gdf["ZCTA5CE20"].astype(int)` column
cast: every row is paired with its normalized integer identifier, and a
single bad cell fails the whole cast. -/
def normalizeZips (rows : List GeoRow) : Option (List (GeoRow × Nat)) :=
  rows.mapM (fun g => (astypeInt g.zcta).map (fun z => (g, z)))

/-- The registry filter of code.py line 124: keep the rows whose
normalized identifier is in `zip_list`. -/
def filterToRegistry (rows : List GeoRow) : Option (List (GeoRow × Nat)) :=
  (normalizeZips rows).map (List.filter (fun gz => zipList.contains gz.2))

/-!
Spatial joiner (geo_map.py lines 63 to 71): filter the normalized
nationwide collection to the identifiers present in the CSV, then
merge(df, on="zip", how="left").  A merged row carries the geometry
fields plus every CSV column: copied from the single matching CSV row,
or all-null when no CSV row matches.
-/

/-- One row of the merged spatial collection. -/
structure SpatialRow where
  geo : GeoRow
  zip : Nat
  city : Option String
  name : Option String
  totalPop25plus : PVal
  pctBachelor : PVal
  pctMaster : PVal
  pctProfessional : PVal
  pctDoctorate : PVal
  pctBachelorOrHigher : PVal
  pctNoBachelors : PVal
deriving DecidableEq, Repr

/-- Whether a CSV row matches a geometry key. -/
def rowMatches (z : Nat) (r : OutRow) : Bool := r.zip == z

/-- A merged row whose statistical side is the matching CSV row. -/
def matchedRow (g : GeoRow) (z : Nat) (r : OutRow) : SpatialRow :=
  ⟨g, z, some r.city, some r.name, r.totalPop25plus,
   r.pctBachelor, r.pctMaster, r.pctProfessional, r.pctDoctorate,
   r.pctBachelorOrHigher, r.pctNoBachelors⟩

/-- A merged row with no statistical match: every right-side column is
null. -/
def unmatchedRow (g : GeoRow) (z : Nat) : SpatialRow :=
  ⟨g, z, none, none, PVal.nan,
   PVal.nan, PVal.nan, PVal.nan, PVal.nan, PVal.nan, PVal.nan⟩

/-- Pandas merge(..., on="zip", how="left"): every left row produces one
output row per matching right row, in order, or a single all-null row
when nothing matches. -/
def leftMerge (lefts : List (GeoRow × Nat)) (rights : List OutRow) : List SpatialRow :=
  lefts.flatMap (fun gz =>
    match rights.filter (rowMatches gz.2) with
    | [] => [unmatchedRow gz.1 gz.2]
    | ms => ms.map (matchedRow gz.1 gz.2))

/-- The single output row a left row yields when the right keys are
unique: the first (hence only) match, or the all-null row. -/
def mergeRow (rights : List OutRow) (gz : GeoRow × Nat) : SpatialRow :=
  match rights.find? (rowMatches gz.2) with
  | some r => matchedRow gz.1 gz.2 r
  | none => unmatchedRow gz.1 gz.2

/-- The joined south-bay collection of geo_map.py lines 63 to 71: filter
the normalized rows to the CSV identifiers, then left-merge with the
CSV. -/
def southbayGdf (geo : List (GeoRow × Nat)) (csv : List OutRow) : List SpatialRow :=
  leftMerge (geo.filter (fun gz => (csv.map OutRow.zip).contains gz.2)) csv

/-- The extra derived metric of geo_map.py lines 167 to 171, computed on
the merged collection: the sum of the master, professional and doctorate
percentage columns. -/
def pctGraduateDegree (s : SpatialRow) : PVal :=
  (s.pctMaster.add s.pctProfessional).add s.pctDoctorate

/-!
Concrete inputs used by the witness and counterexample theorems below.
-/

/-- A record whose denominator cell is missing. -/
def nullDenomRecord : AreaRecord :=
  ⟨95014, "Cupertino", "ZCTA5 95014", PVal.nan,
   PVal.val 0, PVal.val 0, PVal.val 0, PVal.val 0⟩

/-- A record with a zero denominator and a positive bachelor count. -/
def zeroDenomRecord : AreaRecord :=
  ⟨95014, "Cupertino", "ZCTA5 95014", PVal.val 0,
   PVal.val 1, PVal.val 0, PVal.val 0, PVal.val 0⟩

/-- A record with integer counts whose bachelor count exceeds the
denominator. -/
def overCountRecord : AreaRecord :=
  ⟨95110, "San Jose", "ZCTA5 95110",
   PVal.val ((1 : ℕ) : ℚ), PVal.val ((2 : ℕ) : ℚ),
   PVal.val ((0 : ℕ) : ℚ), PVal.val ((0 : ℕ) : ℚ), PVal.val ((0 : ℕ) : ℚ)⟩

/-- The worked example record of the specification: total 1000, bachelor
300, master 200, professional 50, doctorate 50. -/
def specExampleRecord : AreaRecord :=
  ⟨94305, "Palo Alto", "ZCTA5 94305",
   PVal.val ((1000 : ℕ) : ℚ), PVal.val ((300 : ℕ) : ℚ),
   PVal.val ((200 : ℕ) : ℚ), PVal.val ((50 : ℕ) : ℚ), PVal.val ((50 : ℕ) : ℚ)⟩

/-- A record with a zero denominator and positive counts everywhere. -/
def zeroDenomGradRecord : AreaRecord :=
  ⟨95014, "Cupertino", "ZCTA5 95014", PVal.val 0,
   PVal.val 1, PVal.val 1, PVal.val 1, PVal.val 1⟩

/-- A CSV row whose statistical cells are all null (as produced for a
record whose raw cells all failed numeric coercion). -/
def nullMetricsCsvRow : OutRow :=
  ⟨"Cupertino", 95014, "ZCTA5 95014", PVal.nan,
   PVal.nan, PVal.nan, PVal.nan, PVal.nan, PVal.nan, PVal.nan⟩

/-- A fully populated CSV row for identifier 95014. -/
def cupertinoCsvRow : OutRow :=
  ⟨"Cupertino", 95014, "ZCTA5 95014", PVal.val 1000,
   PVal.val 30, PVal.val 20, PVal.val 5, PVal.val 5, PVal.val 60, PVal.val 40⟩

/-- A geometry row carrying the character cell 95014. -/
def cupertinoGeo : GeoRow := ⟨['9', '5', '0', '1', '4'], 3⟩

/-- A geometry row carrying the character cell 90210, an identifier
outside the registry. -/
def outsideGeo : GeoRow := ⟨['9', '0', '2', '1', '0'], 4⟩

/-- A fetch oracle that times out on 95008 and answers everything else
with an echoing reply. -/
def fetchW : Nat → Except String AcsResp := fun w =>
  if w = 95008 then Except.error "timeout"
  else Except.ok ⟨"ZCTA5", "10", "1", "2", "3", "4", w⟩

/-- A fetch oracle that answers every query identically. -/
def constFetch : Nat → Except String AcsResp :=
  fun _ => Except.ok ⟨"", "", "", "", "", "", 0⟩

/-- The first bytes of an HTML error page, a payload that is not a zip
archive. -/
def htmlPayload : List Nat := [60, 104, 116, 109, 108]

/-- Three raw shapefile rows: a registry identifier, a zero-padded small
identifier, and an identifier outside the registry. -/
def geoRowsW : List GeoRow :=
  [⟨['9', '4', '3', '0', '5'], 0⟩, ⟨['0', '0', '5', '0', '1'], 1⟩,
   ⟨['1', '0', '0', '0', '1'], 2⟩]

/-- The normalized form of `geoRowsW`. -/
def nrowsW : List (GeoRow × Nat) :=
  [(⟨['9', '4', '3', '0', '5'], 0⟩, 94305), (⟨['0', '0', '5', '0', '1'], 1⟩, 501),
   (⟨['1', '0', '0', '0', '1'], 2⟩, 10001)]

/-- Two artifact records used to exercise the output sort. -/
def sortRecs : List AreaRecord :=
  [⟨95014, "Cupertino", "ZCTA5 95014", PVal.nan, PVal.nan, PVal.nan, PVal.nan, PVal.nan⟩,
   ⟨94301, "Palo Alto", "ZCTA5 94301", PVal.nan, PVal.nan, PVal.nan, PVal.nan, PVal.nan⟩]

/-!
General lemmas about the embedding.
-/

theorem PVal.add_nan (v : PVal) : v.add PVal.nan = PVal.nan := by cases v <;> rfl

theorem PVal.nan_add (v : PVal) : PVal.nan.add v = PVal.nan := by cases v <;> rfl

theorem PVal.sub_nan (v : PVal) : v.sub PVal.nan = PVal.nan := by cases v <;> rfl

theorem PVal.mul_nan (v : PVal) : v.mul PVal.nan = PVal.nan := by cases v <;> rfl

theorem PVal.nan_mul (v : PVal) : PVal.nan.mul v = PVal.nan := by cases v <;> rfl

theorem PVal.div_nan (v : PVal) : v.div PVal.nan = PVal.nan := by cases v <;> rfl

theorem PVal.nan_div (v : PVal) : PVal.nan.div v = PVal.nan := by cases v <;> rfl

theorem registryIds_nodup : registryIds.Nodup := by decide

theorem lexLE_total {α : Type} [LinearOrder α] :
    ∀ l m : List α, lexLE l m = true ∨ lexLE m l = true
  | [], _ => Or.inl rfl
  | _ :: _, [] => Or.inr rfl
  | a :: as, b :: bs => by
      rcases lt_trichotomy a b with h | h | h
      · left; simp only [lexLE]; rw [if_pos h]
      · rcases lexLE_total as bs with ih | ih
        · left; simp only [lexLE]
          rw [if_neg (not_lt.mpr h.ge), if_neg (not_lt.mpr h.le)]
          exact ih
        · right; simp only [lexLE]
          rw [if_neg (not_lt.mpr h.le), if_neg (not_lt.mpr h.ge)]
          exact ih
      · right; simp only [lexLE]; rw [if_pos h]

theorem lexLE_antisymm {α : Type} [LinearOrder α] :
    ∀ l m : List α, lexLE l m = true → lexLE m l = true → l = m
  | [], [], _, _ => rfl
  | [], _ :: _, _, h => by simp [lexLE] at h
  | _ :: _, [], h, _ => by simp [lexLE] at h
  | a :: as, b :: bs, h, h' => by
      simp only [lexLE] at h h'
      rcases lt_trichotomy a b with hab | hab | hab
      · rw [if_neg (lt_asymm hab), if_pos hab] at h'; cases h'
      · rw [if_neg (not_lt.mpr hab.ge), if_neg (not_lt.mpr hab.le)] at h
        rw [if_neg (not_lt.mpr hab.le), if_neg (not_lt.mpr hab.ge)] at h'
        rw [hab, lexLE_antisymm as bs h h']
      · rw [if_neg (lt_asymm hab), if_pos hab] at h; cases h

theorem lexLE_trans {α : Type} [LinearOrder α] :
    ∀ l m k : List α, lexLE l m = true → lexLE m k = true → lexLE l k = true
  | [], _, _, _, _ => rfl
  | _ :: _, [], _, h, _ => by simp [lexLE] at h
  | _ :: _, _ :: _, [], _, h' => by simp [lexLE] at h'
  | a :: as, b :: bs, c :: cs, h, h' => by
      simp only [lexLE] at h h' ⊢
      rcases lt_trichotomy a b with hab | hab | hab
      · rcases lt_trichotomy b c with hbc | hbc | hbc
        · rw [if_pos (lt_trans hab hbc)]
        · rw [if_pos (lt_of_lt_of_le hab hbc.le)]
        · rw [if_neg (lt_asymm hbc), if_pos hbc] at h'; cases h'
      · rw [if_neg (not_lt.mpr hab.ge), if_neg (not_lt.mpr hab.le)] at h
        rcases lt_trichotomy b c with hbc | hbc | hbc
        · rw [if_pos (lt_of_le_of_lt hab.le hbc)]
        · rw [if_neg (not_lt.mpr hbc.ge), if_neg (not_lt.mpr hbc.le)] at h'
          have hac : a = c := hab.trans hbc
          rw [if_neg (not_lt.mpr hac.ge), if_neg (not_lt.mpr hac.le)]
          exact lexLE_trans as bs cs h h'
        · rw [if_neg (lt_asymm hbc), if_pos hbc] at h'; cases h'
      · rw [if_neg (lt_asymm hab), if_pos hab] at h; cases h

set_option maxHeartbeats 1000000 in
theorem zipLEb_iff {a b : Nat} (ha : a < 100000) (hb : b < 100000) :
    zipLEb a b = true ↔ a ≤ b := by
  simp only [zipLEb, zipDigits, lexLE]
  split_ifs <;> simp_all <;> omega

theorem string_data_inj {a b : String} (h : a.data = b.data) : a = b := by
  cases a; cases b; simp only at h; rw [h]

theorem outRel_total : ∀ r s : OutRow, outRel r s ∨ outRel s r := by
  intro r s
  unfold outRel outLE
  by_cases h : r.city.data = s.city.data
  · rw [if_pos h, if_pos h.symm]
    rcases lexLE_total (zipDigits r.zip) (zipDigits s.zip) with hz | hz
    · left; exact hz
    · right; exact hz
  · rw [if_neg h, if_neg (Ne.symm h)]
    exact lexLE_total _ _

theorem outRel_trans : ∀ r s t : OutRow, outRel r s → outRel s t → outRel r t := by
  intro r s t h h'
  unfold outRel outLE at h h' ⊢
  by_cases hrs : r.city.data = s.city.data <;>
    by_cases hst : s.city.data = t.city.data
  · rw [if_pos hrs] at h
    rw [if_pos hst] at h'
    rw [if_pos (hrs.trans hst)]
    exact lexLE_trans _ _ _ h h'
  · rw [if_pos hrs] at h
    rw [if_neg hst] at h'
    have hrt : r.city.data ≠ t.city.data := fun hh => hst (hrs.symm.trans hh)
    rw [if_neg hrt, hrs]
    exact h'
  · rw [if_neg hrs] at h
    rw [if_pos hst] at h'
    have hrt : r.city.data ≠ t.city.data := fun hh => hrs (hh.trans hst.symm)
    rw [if_neg hrt, ← hst]
    exact h
  · rw [if_neg hrs] at h
    rw [if_neg hst] at h'
    by_cases hrt : r.city.data = t.city.data
    · exact absurd (lexLE_antisymm _ _ h (by rw [hrt]; exact h')) hrs
    · rw [if_neg hrt]
      exact lexLE_trans _ _ _ h h'

theorem filter_matches_of_nodup {rights : List OutRow} (hkeys : (rights.map OutRow.zip).Nodup)
    (z : Nat) :
    rights.filter (rowMatches z) = (rights.find? (rowMatches z)).toList := by
  induction rights with
  | nil => rfl
  | cons r rs ih =>
      simp only [List.map_cons, List.nodup_cons] at hkeys
      by_cases hr : rowMatches z r = true
      · have hz : r.zip = z := by simpa [rowMatches] using hr
        have hnil : rs.filter (rowMatches z) = [] := by
          apply List.filter_eq_nil_iff.mpr
          intro r' hr' hmatch
          have hz' : r'.zip = z := by simpa [rowMatches] using hmatch
          exact hkeys.1 (by rw [hz, ← hz']; exact List.mem_map_of_mem OutRow.zip hr')
        simp [List.filter_cons, List.find?_cons, hr, hnil]
      · simp only [List.filter_cons, List.find?_cons, hr, Bool.false_eq_true, if_false,
          cond_false]
        exact ih hkeys.2

theorem leftMerge_eq_map {lefts : List (GeoRow × Nat)} {rights : List OutRow}
    (hkeys : (rights.map OutRow.zip).Nodup) :
    leftMerge lefts rights = lefts.map (mergeRow rights) := by
  induction lefts with
  | nil => rfl
  | cons gz lefts ih =>
      simp only [leftMerge, List.flatMap_cons, List.map_cons] at *
      rw [filter_matches_of_nodup hkeys gz.2]
      cases hfind : rights.find? (rowMatches gz.2) with
      | none => simp [mergeRow, hfind, ih]
      | some r => simp [mergeRow, hfind, Option.toList, ih]

theorem find?_eq_of_mem_of_nodup {rights : List OutRow}
    (hkeys : (rights.map OutRow.zip).Nodup) {r : OutRow} {z : Nat}
    (hmem : r ∈ rights) (hz : r.zip = z) :
    rights.find? (rowMatches z) = some r := by
  induction rights with
  | nil => cases hmem
  | cons r' rs ih =>
      simp only [List.map_cons, List.nodup_cons] at hkeys
      rcases List.mem_cons.mp hmem with rfl | hmem'
      · simp [List.find?_cons, rowMatches, hz]
      · have hne : rowMatches z r' = false := by
          simp only [rowMatches, beq_eq_false_iff_ne, ne_eq]
          intro hz'
          exact hkeys.1 (by rw [hz', ← hz]; exact List.mem_map_of_mem OutRow.zip hmem')
        simp only [List.find?_cons, hne, cond_false]
        exact ih hkeys.2 hmem'

theorem fetchLoop_queried (fetch : Nat → Except String AcsResp) :
    ∀ zs : List Nat, (fetchLoop fetch zs).queried = zs := by
  intro zs
  induction zs with
  | nil => rfl
  | cons z zs ih =>
      simp only [fetchLoop]
      cases fetch z <;> simpa using ih

theorem fetchLoop_warn_of_error (fetch : Nat → Except String AcsResp) {z : Nat} {e : String}
    (hfail : fetch z = .error e) :
    ∀ zs : List Nat, z ∈ zs → failMsg z e ∈ (fetchLoop fetch zs).warns := by
  intro zs hmem
  induction zs with
  | nil => cases hmem
  | cons w zs ih =>
      rcases List.mem_cons.mp hmem with rfl | hmem'
      · simp [fetchLoop, hfail]
      · simp only [fetchLoop]
        cases fetch w <;> simp [ih hmem']

theorem fetchLoop_no_record_of_error (fetch : Nat → Except String AcsResp) {z : Nat} {e : String}
    (hfail : fetch z = .error e)
    (hecho : ∀ w resp, fetch w = .ok resp → resp.zcta = w) :
    ∀ zs : List Nat, ∀ cr ∈ (fetchLoop fetch zs).recs, cr.2.zcta ≠ z := by
  intro zs
  induction zs with
  | nil => intro cr h; cases h
  | cons w zs ih =>
      intro cr hcr
      simp only [fetchLoop] at hcr
      cases hw : fetch w with
      | error e' => rw [hw] at hcr; exact ih cr hcr
      | ok resp =>
          rw [hw] at hcr
          rcases List.mem_cons.mp hcr with rfl | hmem'
          · have hresp : resp.zcta = w := hecho w resp hw
            intro hcontra
            rw [hresp] at hcontra
            subst hcontra
            rw [hw] at hfail
            cases hfail
          · exact ih cr hmem'

theorem fetchLoop_recs_skip (fetch : Nat → Except String AcsResp) {z : Nat} {e : String}
    (hfail : fetch z = .error e) :
    ∀ zs : List Nat,
      (fetchLoop fetch zs).recs = (fetchLoop fetch (zs.filter (fun w => w ≠ z))).recs := by
  intro zs
  induction zs with
  | nil => rfl
  | cons w zs ih =>
      by_cases hw : w = z
      · subst hw
        have h1 : (w :: zs).filter (fun x => x ≠ w) = zs.filter (fun x => x ≠ w) := by
          simp [List.filter_cons]
        rw [h1]
        simp only [fetchLoop, hfail]
        exact ih
      · have h1 : (w :: zs).filter (fun x => x ≠ z) = w :: zs.filter (fun x => x ≠ z) := by
          simp [List.filter_cons, hw]
        rw [h1]
        simp only [fetchLoop]
        cases fetch w <;> simp [ih]

theorem ratio_bounds {x t : ℚ} (hx : 0 ≤ x) (hxt : x ≤ t) (ht : 0 < t) :
    0 ≤ x / t * 100 ∧ x / t * 100 ≤ 100 := by
  constructor
  · positivity
  · have h1 : x / t ≤ 1 := (div_le_one ht).mpr hxt
    linarith

theorem decodeCore_zero_pad : ∀ (k : Nat) (cs : List Char),
    decodeCore 0 (List.replicate k '0' ++ cs) = decodeCore 0 cs := by
  intro k
  induction k with
  | zero => intro cs; rfl
  | succ n ih =>
      intro cs
      have hz : digitVal '0' = some 0 := rfl
      simp only [List.replicate_succ, List.cons_append, decodeCore, hz]
      exact ih cs

theorem contains_iff_mem {l : List Nat} {z : Nat} : l.contains z = true ↔ z ∈ l := by
  simp [List.contains_iff_exists_mem_beq, beq_iff_eq]

/-!
Claim-level results.
-/

/-- Claim C1, corrected.  For every AreaRecord whose
total-population-25plus denominator is missing, or zero while every raw
degree count is itself zero or missing, the metric deriver yields the
null marker for all five percentage fields and for pct_no_bachelors, and
(being a total function) it never raises an exception.  The original
claim also covered a zero denominator with a positive count; there the
code yields positive infinity instead of null, see the counterexample. -/
theorem C1_null_denominator_yields_null (r : AreaRecord)
    (h : r.total = PVal.nan ∨
      (r.total = PVal.val 0 ∧ zeroOrMissing r.bach ∧ zeroOrMissing r.mast ∧
        zeroOrMissing r.prof ∧ zeroOrMissing r.doct)) :
    (pctBachelor r).isNull = true ∧ (pctMaster r).isNull = true ∧
    (pctProfessional r).isNull = true ∧ (pctDoctorate r).isNull = true ∧
    (pctBachelorOrHigher r).isNull = true ∧ (pctNoBachelors r).isNull = true := by
  rcases h with ht | ⟨ht, hb, hm, hp, hd⟩
  · simp [pctBachelor, pctMaster, pctProfessional, pctDoctorate, pctBachelorOrHigher,
      pctNoBachelors, ht, PVal.div_nan, PVal.nan_mul, PVal.mul_nan, PVal.add_nan,
      PVal.nan_add, PVal.sub_nan, PVal.isNull]
  · simp only [zeroOrMissing] at hb hm hp hd
    rcases hb with hb | hb <;> rcases hm with hm | hm <;>
      rcases hp with hp | hp <;> rcases hd with hd | hd <;>
      simp [pctBachelor, pctMaster, pctProfessional, pctDoctorate, pctBachelorOrHigher,
        pctNoBachelors, ht, hb, hm, hp, hd, PVal.div, PVal.mul, PVal.add, PVal.sub,
        PVal.isNull]

/-- Witness for C1 at the concrete record with a missing denominator. -/
theorem C1_witness :
    nullDenomRecord.total = PVal.nan ∧
    ((pctBachelor nullDenomRecord).isNull = true ∧
     (pctMaster nullDenomRecord).isNull = true ∧
     (pctProfessional nullDenomRecord).isNull = true ∧
     (pctDoctorate nullDenomRecord).isNull = true ∧
     (pctBachelorOrHigher nullDenomRecord).isNull = true ∧
     (pctNoBachelors nullDenomRecord).isNull = true) :=
  ⟨rfl, C1_null_denominator_yields_null nullDenomRecord (Or.inl rfl)⟩

/-- Counterexample to C1 as stated: a record with denominator zero and
bachelor count one has pct_bachelor equal to positive infinity, which is
not the null marker, so a zero denominator does not always yield null
and the deriver does produce an unrepresentable value there. -/
theorem C1_counterexample :
    zeroDenomRecord.total = PVal.val 0 ∧
    pctBachelor zeroDenomRecord = PVal.pinf ∧
    (pctBachelor zeroDenomRecord).isNull = false := by
  refine ⟨rfl, ?_, ?_⟩ <;>
    norm_num [pctBachelor, zeroDenomRecord, PVal.div, PVal.mul, PVal.isNull]

/-- Claim C2, corrected.  For every AreaRecord whose five raw cells hold
non-negative integer counts and whose four degree counts sum to at most
the denominator, each derived percentage field is either null or a value
inside [0, 100].  The original claim had no bound relating the counts to
the denominator; without it a count exceeding the denominator puts the
percentage above 100, see the counterexample. -/
theorem C2_percentages_bounded (r : AreaRecord) (T B M P D : ℕ)
    (ht : r.total = PVal.val (T : ℚ)) (hb : r.bach = PVal.val (B : ℚ))
    (hm : r.mast = PVal.val (M : ℚ)) (hp : r.prof = PVal.val (P : ℚ))
    (hd : r.doct = PVal.val (D : ℚ)) (hsum : B + M + P + D ≤ T) :
    nullOrInRange (pctBachelor r) ∧ nullOrInRange (pctMaster r) ∧
    nullOrInRange (pctProfessional r) ∧ nullOrInRange (pctDoctorate r) ∧
    nullOrInRange (pctBachelorOrHigher r) ∧ nullOrInRange (pctNoBachelors r) := by
  by_cases hT : T = 0
  · subst hT
    have hB : B = 0 := by omega
    have hM : M = 0 := by omega
    have hP : P = 0 := by omega
    have hD : D = 0 := by omega
    subst hB; subst hM; subst hP; subst hD
    simp only [Nat.cast_zero] at ht hb hm hp hd
    refine ⟨Or.inl ?_, Or.inl ?_, Or.inl ?_, Or.inl ?_, Or.inl ?_, Or.inl ?_⟩ <;>
      simp [pctBachelor, pctMaster, pctProfessional, pctDoctorate, pctBachelorOrHigher,
        pctNoBachelors, ht, hb, hm, hp, hd, PVal.div, PVal.mul, PVal.add, PVal.sub]
  · have hT0 : (0 : ℚ) < T := by exact_mod_cast Nat.pos_of_ne_zero hT
    have hTne : (T : ℚ) ≠ 0 := ne_of_gt hT0
    have hsum' : ((B : ℚ) + M + P + D) ≤ (T : ℚ) := by exact_mod_cast hsum
    have e1 : pctBachelor r = PVal.val ((B : ℚ) / T * 100) := by
      simp [pctBachelor, ht, hb, PVal.div, PVal.mul, hTne]
    have e2 : pctMaster r = PVal.val ((M : ℚ) / T * 100) := by
      simp [pctMaster, ht, hm, PVal.div, PVal.mul, hTne]
    have e3 : pctProfessional r = PVal.val ((P : ℚ) / T * 100) := by
      simp [pctProfessional, ht, hp, PVal.div, PVal.mul, hTne]
    have e4 : pctDoctorate r = PVal.val ((D : ℚ) / T * 100) := by
      simp [pctDoctorate, ht, hd, PVal.div, PVal.mul, hTne]
    have e5 : pctBachelorOrHigher r = PVal.val (((B : ℚ) + M + P + D) / T * 100) := by
      simp [pctBachelorOrHigher, ht, hb, hm, hp, hd, PVal.add, PVal.div, PVal.mul, hTne]
    have e6 : pctNoBachelors r = PVal.val (100 - ((B : ℚ) + M + P + D) / T * 100) := by
      simp [pctNoBachelors, e5, PVal.sub]
    have c1 := ratio_bounds (x := (B : ℚ)) (by positivity) (by nlinarith) hT0
    have c2 := ratio_bounds (x := (M : ℚ)) (by positivity) (by nlinarith) hT0
    have c3 := ratio_bounds (x := (P : ℚ)) (by positivity) (by nlinarith) hT0
    have c4 := ratio_bounds (x := (D : ℚ)) (by positivity) (by nlinarith) hT0
    have c5 := ratio_bounds (x := ((B : ℚ) + M + P + D)) (by positivity) hsum' hT0
    exact ⟨Or.inr ⟨_, e1, c1⟩, Or.inr ⟨_, e2, c2⟩, Or.inr ⟨_, e3, c3⟩,
      Or.inr ⟨_, e4, c4⟩, Or.inr ⟨_, e5, c5⟩,
      Or.inr ⟨_, e6, by linarith [c5.1, c5.2], by linarith [c5.1, c5.2]⟩⟩

/-- Witness for C2 at the worked example record of the specification. -/
theorem C2_witness :
    specExampleRecord.total = PVal.val ((1000 : ℕ) : ℚ) ∧
    300 + 200 + 50 + 50 ≤ 1000 ∧
    (nullOrInRange (pctBachelor specExampleRecord) ∧
     nullOrInRange (pctMaster specExampleRecord) ∧
     nullOrInRange (pctProfessional specExampleRecord) ∧
     nullOrInRange (pctDoctorate specExampleRecord) ∧
     nullOrInRange (pctBachelorOrHigher specExampleRecord) ∧
     nullOrInRange (pctNoBachelors specExampleRecord)) :=
  ⟨rfl, by decide,
   C2_percentages_bounded specExampleRecord 1000 300 200 50 50
     rfl rfl rfl rfl rfl (by decide)⟩

/-- Counterexample to C2 as stated: with non-negative integer counts
total 1, bachelor 2, pct_bachelor is 200, which is neither null nor
inside [0, 100]. -/
theorem C2_counterexample :
    overCountRecord.total = PVal.val ((1 : ℕ) : ℚ) ∧
    overCountRecord.bach = PVal.val ((2 : ℕ) : ℚ) ∧
    ¬ nullOrInRange (pctBachelor overCountRecord) := by
  have e : pctBachelor overCountRecord = PVal.val 200 := by
    norm_num [pctBachelor, overCountRecord, PVal.div, PVal.mul]
  refine ⟨rfl, rfl, ?_⟩
  rw [e]
  rintro (h | ⟨q, hq, h0, h100⟩)
  · cases h
  · rw [PVal.val.injEq] at hq
    rw [← hq] at h100
    norm_num at h100

/-- Claim C6, confirmed.  For a record with a non-null positive
denominator and non-null counts, pct_bachelor_or_higher equals the sum
pct_bachelor + pct_master + pct_professional + pct_doctorate exactly (in
the exact rational model of the float computation), because it is the
summed counts divided by the same denominator. -/
theorem C6_bachelor_or_higher_is_sum (r : AreaRecord) (t b m p d : ℚ)
    (ht : r.total = PVal.val t) (h0 : 0 < t)
    (hb : r.bach = PVal.val b) (hm : r.mast = PVal.val m)
    (hp : r.prof = PVal.val p) (hd : r.doct = PVal.val d) :
    pctBachelorOrHigher r =
      (((pctBachelor r).add (pctMaster r)).add (pctProfessional r)).add (pctDoctorate r) := by
  have htne : t ≠ 0 := ne_of_gt h0
  simp only [pctBachelorOrHigher, pctBachelor, pctMaster, pctProfessional, pctDoctorate,
    ht, hb, hm, hp, hd, PVal.add, PVal.div, PVal.mul, if_neg htne, PVal.val.injEq]
  field_simp
  ring

/-- Witness for C6 at the worked example record of the specification. -/
theorem C6_witness :
    specExampleRecord.total = PVal.val (1000 : ℚ) ∧ (0 : ℚ) < 1000 ∧
    pctBachelorOrHigher specExampleRecord =
      (((pctBachelor specExampleRecord).add (pctMaster specExampleRecord)).add
        (pctProfessional specExampleRecord)).add (pctDoctorate specExampleRecord) :=
  ⟨by simp [specExampleRecord], by decide,
   C6_bachelor_or_higher_is_sum specExampleRecord 1000 300 200 50 50
     (by simp [specExampleRecord]) (by decide)
     (by simp [specExampleRecord]) (by simp [specExampleRecord])
     (by simp [specExampleRecord]) (by simp [specExampleRecord])⟩

/-- Claim C10, corrected.  The joined collection carries the extra
derived metric pct_graduate_degree, defined as the sum of the master,
professional and doctorate percentage columns; for a merged row built
from a record whose percentages share the same non-null and nonzero
denominator it also equals pct_bachelor_or_higher minus pct_bachelor.
The original claim asked only for a non-null shared denominator; a zero
denominator with positive counts breaks the subtraction identity, see
the counterexample. -/
theorem C10_graduate_degree_decomposition (g : GeoRow) (z : Nat) (r : AreaRecord)
    (s : SpatialRow) (t b m p d : ℚ)
    (hs : s = matchedRow g z (deriveOut r))
    (ht : r.total = PVal.val t) (h0 : t ≠ 0)
    (hb : r.bach = PVal.val b) (hm : r.mast = PVal.val m)
    (hp : r.prof = PVal.val p) (hd : r.doct = PVal.val d) :
    pctGraduateDegree s = (s.pctMaster.add s.pctProfessional).add s.pctDoctorate ∧
    pctGraduateDegree s = s.pctBachelorOrHigher.sub s.pctBachelor := by
  subst hs
  refine ⟨rfl, ?_⟩
  simp only [pctGraduateDegree, matchedRow, deriveOut, pctMaster, pctProfessional,
    pctDoctorate, pctBachelorOrHigher, pctBachelor, ht, hb, hm, hp, hd,
    PVal.add, PVal.div, PVal.mul, PVal.sub, if_neg h0, PVal.val.injEq]
  field_simp
  ring

/-- Witness for C10 at the worked example record joined with the 95014
geometry row. -/
theorem C10_witness :
    specExampleRecord.total = PVal.val (1000 : ℚ) ∧ (1000 : ℚ) ≠ 0 ∧
    (pctGraduateDegree (matchedRow cupertinoGeo 94305 (deriveOut specExampleRecord)) =
      ((matchedRow cupertinoGeo 94305 (deriveOut specExampleRecord)).pctMaster.add
        (matchedRow cupertinoGeo 94305 (deriveOut specExampleRecord)).pctProfessional).add
        (matchedRow cupertinoGeo 94305 (deriveOut specExampleRecord)).pctDoctorate ∧
     pctGraduateDegree (matchedRow cupertinoGeo 94305 (deriveOut specExampleRecord)) =
      (matchedRow cupertinoGeo 94305 (deriveOut specExampleRecord)).pctBachelorOrHigher.sub
        (matchedRow cupertinoGeo 94305 (deriveOut specExampleRecord)).pctBachelor) :=
  ⟨by simp [specExampleRecord], by decide,
   C10_graduate_degree_decomposition cupertinoGeo 94305 specExampleRecord _
     1000 300 200 50 50 rfl (by simp [specExampleRecord]) (by decide)
     (by simp [specExampleRecord]) (by simp [specExampleRecord])
     (by simp [specExampleRecord]) (by simp [specExampleRecord])⟩

/-- Counterexample to C10 as stated: joined from a record with non-null
zero denominator and positive counts, every component percentage is
positive infinity (hence non-null), pct_graduate_degree is positive
infinity, but pct_bachelor_or_higher minus pct_bachelor is NaN, so the
subtraction identity fails although the shared denominator is
non-null. -/
theorem C10_counterexample :
    zeroDenomGradRecord.total = PVal.val 0 ∧
    (PVal.val 0).isNull = false ∧
    (matchedRow cupertinoGeo 95014 (deriveOut zeroDenomGradRecord)).pctMaster.isNull = false ∧
    pctGraduateDegree (matchedRow cupertinoGeo 95014 (deriveOut zeroDenomGradRecord)) ≠
      (matchedRow cupertinoGeo 95014 (deriveOut zeroDenomGradRecord)).pctBachelorOrHigher.sub
        (matchedRow cupertinoGeo 95014 (deriveOut zeroDenomGradRecord)).pctBachelor := by
  have em : (matchedRow cupertinoGeo 95014 (deriveOut zeroDenomGradRecord)).pctMaster =
      PVal.pinf := by
    norm_num [matchedRow, deriveOut, pctMaster, zeroDenomGradRecord, PVal.div, PVal.mul]
  have ep : (matchedRow cupertinoGeo 95014 (deriveOut zeroDenomGradRecord)).pctProfessional =
      PVal.pinf := by
    norm_num [matchedRow, deriveOut, pctProfessional, zeroDenomGradRecord, PVal.div, PVal.mul]
  have ed : (matchedRow cupertinoGeo 95014 (deriveOut zeroDenomGradRecord)).pctDoctorate =
      PVal.pinf := by
    norm_num [matchedRow, deriveOut, pctDoctorate, zeroDenomGradRecord, PVal.div, PVal.mul]
  have eb : (matchedRow cupertinoGeo 95014 (deriveOut zeroDenomGradRecord)).pctBachelor =
      PVal.pinf := by
    norm_num [matchedRow, deriveOut, pctBachelor, zeroDenomGradRecord, PVal.div, PVal.mul]
  have ebh : (matchedRow cupertinoGeo 95014 (deriveOut zeroDenomGradRecord)).pctBachelorOrHigher =
      PVal.pinf := by
    norm_num [matchedRow, deriveOut, pctBachelorOrHigher, zeroDenomGradRecord,
      PVal.add, PVal.div, PVal.mul]
  refine ⟨rfl, rfl, ?_, ?_⟩
  · rw [em]; rfl
  · rw [pctGraduateDegree, em, ep, ed, ebh, eb]
    decide

/-- Claim C3, corrected.  The spatial join is a left join on the
normalized identifier: with unique CSV keys the joined collection is
exactly the filtered geometry rows mapped one-to-one (so every filtered
row appears exactly once, in order); a geometry row with a matching CSV
record carries exactly that record by-column (its metric fields are
non-null precisely when the record cells are), and a geometry row
without a match still appears, with every statistical column null.  The
original claim asserted non-null metric fields for every matched row;
that fails when the matching record itself holds null cells, see the
counterexample. -/
theorem C3_left_join_shape (geo : List (GeoRow × Nat)) (csv : List OutRow)
    (hkeys : (csv.map OutRow.zip).Nodup) :
    southbayGdf geo csv =
      (geo.filter (fun gz => (csv.map OutRow.zip).contains gz.2)).map (mergeRow csv) ∧
    (∀ gz : GeoRow × Nat, ∀ r ∈ csv, r.zip = gz.2 →
      mergeRow csv gz = matchedRow gz.1 gz.2 r) ∧
    (∀ gz : GeoRow × Nat, (∀ r ∈ csv, r.zip ≠ gz.2) →
      mergeRow csv gz = unmatchedRow gz.1 gz.2) ∧
    (∀ (g : GeoRow) (z : Nat),
      (unmatchedRow g z).totalPop25plus.isNull = true ∧
      (unmatchedRow g z).pctBachelor.isNull = true ∧
      (unmatchedRow g z).pctMaster.isNull = true ∧
      (unmatchedRow g z).pctProfessional.isNull = true ∧
      (unmatchedRow g z).pctDoctorate.isNull = true ∧
      (unmatchedRow g z).pctBachelorOrHigher.isNull = true ∧
      (unmatchedRow g z).pctNoBachelors.isNull = true) := by
  refine ⟨leftMerge_eq_map hkeys, ?_, ?_, ?_⟩
  · intro gz r hr hz
    rw [mergeRow, find?_eq_of_mem_of_nodup hkeys hr hz]
  · intro gz hnone
    have hfind : csv.find? (rowMatches gz.2) = none := by
      apply List.find?_eq_none.mpr
      intro r hr
      simp only [rowMatches, beq_eq_false_iff_ne, ne_eq, Bool.not_eq_true]
      simpa using hnone r hr
    rw [mergeRow, hfind]
  · intro g z
    exact ⟨rfl, rfl, rfl, rfl, rfl, rfl, rfl⟩

/-- Witness for C3 at a two-row geometry collection (one match inside
the CSV, one identifier without a statistical record). -/
theorem C3_witness :
    ([cupertinoCsvRow].map OutRow.zip).Nodup ∧
    southbayGdf [(cupertinoGeo, 95014), (outsideGeo, 90210)] [cupertinoCsvRow] =
      ([(cupertinoGeo, 95014), (outsideGeo, 90210)].filter
        (fun gz => ([cupertinoCsvRow].map OutRow.zip).contains gz.2)).map
        (mergeRow [cupertinoCsvRow]) :=
  ⟨by decide,
   (C3_left_join_shape [(cupertinoGeo, 95014), (outsideGeo, 90210)] [cupertinoCsvRow]
     (by decide)).1⟩

/-- Counterexample to C3 as stated: the CSV row for 95014 exists (a
statistical match), yet the joined row for the 95014 geometry has a null
metric field, because the matching record itself carries null cells. -/
theorem C3_counterexample :
    nullMetricsCsvRow.zip = 95014 ∧
    (southbayGdf [(cupertinoGeo, 95014)] [nullMetricsCsvRow]).map
      (fun s => s.pctBachelorOrHigher.isNull) = [true] := by decide

/-- Claim C4, confirmed.  When the fetch of one identifier fails, the
loop records the warning naming the identifier and the error text, no
record for that identifier reaches the collected rows (given that a
successful reply echoes the queried identifier), the collected rows are
exactly those of a run over the remaining identifiers, and the
identifier is absent from the final artifact. -/
theorem C4_per_area_failure_isolated (fetch : Nat → Except String AcsResp)
    (toNum : String → Option ℚ) (zs : List Nat) (z : Nat) (e : String)
    (hmem : z ∈ zs) (hfail : fetch z = .error e)
    (hecho : ∀ w resp, fetch w = .ok resp → resp.zcta = w) :
    failMsg z e ∈ (fetchLoop fetch zs).warns ∧
    (∀ cr ∈ (fetchLoop fetch zs).recs, cr.2.zcta ≠ z) ∧
    (fetchLoop fetch zs).recs = (fetchLoop fetch (zs.filter (fun w => w ≠ z))).recs ∧
    (∀ row ∈ pipelineOut fetch toNum zs, row.zip ≠ z) := by
  refine ⟨fetchLoop_warn_of_error fetch hfail zs hmem,
    fetchLoop_no_record_of_error fetch hfail hecho zs,
    fetchLoop_recs_skip fetch hfail zs, ?_⟩
  intro row hrow
  have h1 : row ∈ (pipelineRecords fetch toNum zs).map deriveOut :=
    (List.perm_insertionSort outRel _).mem_iff.mp hrow
  rcases List.mem_map.mp h1 with ⟨rec, hrec, rfl⟩
  rcases List.mem_map.mp hrec with ⟨cr, hcr, rfl⟩
  have h2 := fetchLoop_no_record_of_error fetch hfail hecho zs cr hcr
  simpa [deriveOut, mkRecord] using h2

/-- Witness for C4: a batch over 95008 and 95014 where 95008 times
out. -/
theorem C4_witness :
    (95008 ∈ [95008, 95014] ∧ fetchW 95008 = Except.error "timeout") ∧
    (failMsg 95008 "timeout" ∈ (fetchLoop fetchW [95008, 95014]).warns ∧
     (∀ cr ∈ (fetchLoop fetchW [95008, 95014]).recs, cr.2.zcta ≠ 95008) ∧
     (fetchLoop fetchW [95008, 95014]).recs =
       (fetchLoop fetchW ([95008, 95014].filter (fun w => w ≠ 95008))).recs ∧
     (∀ row ∈ pipelineOut fetchW (fun _ => none) [95008, 95014], row.zip ≠ 95008)) :=
  ⟨⟨by decide, rfl⟩,
   C4_per_area_failure_isolated fetchW (fun _ => none) [95008, 95014] 95008 "timeout"
     (by decide) rfl
     (by
       intro w resp h
       unfold fetchW at h
       split at h
       · cases h
       · cases h; rfl)⟩

/-- Claim C5, confirmed.  When the first download returns a payload that
does not begin with the four-byte zip signature, the loader does not
extract it in the primary path, prints the diagnostic carrying the first
hundred bytes received, and falls back to the one streamed retry: the
run ends fatally exactly when the streamed download or its extraction
fails, and succeeds through the streamed payload otherwise. -/
theorem C5_signature_validated (d1 d2 : Except String (List Nat))
    (ex : List Nat → Except String Unit) (p : List Nat)
    (h1 : d1 = .ok p) (hsig : p.take 4 ≠ zipSig) :
    loadShapefile d1 d2 ex =
      (retryStream d2 ex,
       [invalidZipMsg, firstBytesMsg (p.take 100), downloadErrMsg "Invalid ZIP file"]) ∧
    firstBytesMsg (p.take 100) ∈ (loadShapefile d1 d2 ex).2 ∧
    (∀ q, (loadShapefile d1 d2 ex).1 ≠ LoadResult.extractedMem q) ∧
    (∀ e, d2 = .error e → (loadShapefile d1 d2 ex).1 = LoadResult.fatal e) ∧
    (∀ q e, d2 = .ok q → ex q = .error e → (loadShapefile d1 d2 ex).1 = LoadResult.fatal e) ∧
    (∀ q, d2 = .ok q → ex q = .ok () →
      (loadShapefile d1 d2 ex).1 = LoadResult.extractedStream q) := by
  subst h1
  have hmain : loadShapefile (Except.ok p) d2 ex =
      (retryStream d2 ex,
       [invalidZipMsg, firstBytesMsg (p.take 100), downloadErrMsg "Invalid ZIP file"]) := by
    simp [loadShapefile, hsig]
  refine ⟨hmain, ?_, ?_, ?_, ?_, ?_⟩
  · rw [hmain]; simp
  · intro q
    rw [hmain]
    cases hd2 : d2 with
    | error e => simp [retryStream]
    | ok q2 =>
        simp only [retryStream]
        cases ex q2 <;> simp
  · intro e hd2
    rw [hmain, hd2]
    rfl
  · intro q e hd2 hex
    rw [hmain, hd2]
    simp [retryStream, hex]
  · intro q hd2 hex
    rw [hmain, hd2]
    simp [retryStream, hex]

/-- Witness for C5: an HTML error page payload (not starting with the
zip signature) followed by a failing streamed retry. -/
theorem C5_witness :
    htmlPayload.take 4 ≠ zipSig ∧
    (firstBytesMsg (htmlPayload.take 100) ∈
      (loadShapefile (Except.ok htmlPayload) (Except.error "connection reset")
        (fun _ => Except.ok ())).2 ∧
     (loadShapefile (Except.ok htmlPayload) (Except.error "connection reset")
        (fun _ => Except.ok ())).1 = LoadResult.fatal "connection reset") :=
  ⟨by decide,
   ⟨(C5_signature_validated (Except.ok htmlPayload)
       (Except.error "connection reset") (fun _ => Except.ok ())
       htmlPayload rfl (by decide)).2.1,
    (C5_signature_validated (Except.ok htmlPayload)
       (Except.error "connection reset") (fun _ => Except.ok ())
       htmlPayload rfl (by decide)).2.2.2.1 "connection reset" rfl⟩⟩

/-- Claim C7, confirmed.  Once the identifier column is normalized (the
astype(int) cast succeeds on every row), the filtered collection keeps
exactly the rows whose normalized identifier is in the registry list:
membership in the filter output is equivalent to registry membership,
nothing outside the registry survives, and the parse is insensitive to
leading zero-padding, so a zero-padded cell matches its registry
integer. -/
theorem C7_registry_filter_exact (rows : List GeoRow) (nrows : List (GeoRow × Nat))
    (h : normalizeZips rows = some nrows) :
    filterToRegistry rows = some (nrows.filter (fun gz => zipList.contains gz.2)) ∧
    (∀ gz : GeoRow × Nat,
      gz ∈ nrows.filter (fun gz => zipList.contains gz.2) ↔ gz ∈ nrows ∧ gz.2 ∈ zipList) ∧
    (∀ (k : Nat) (cs : List Char), cs ≠ [] →
      astypeInt (List.replicate k '0' ++ cs) = astypeInt cs) := by
  refine ⟨?_, ?_, ?_⟩
  · rw [filterToRegistry, h]
    rfl
  · intro gz
    rw [List.mem_filter]
    constructor
    · rintro ⟨h1, h2⟩
      exact ⟨h1, contains_iff_mem.mp h2⟩
    · rintro ⟨h1, h2⟩
      exact ⟨h1, contains_iff_mem.mpr h2⟩
  · intro k cs hcs
    have hne : ¬ (List.replicate k '0' ++ cs).isEmpty = true := by
      simp [List.isEmpty_iff, hcs]
    have hne' : ¬ cs.isEmpty = true := by
      simp [List.isEmpty_iff, hcs]
    rw [astypeInt, astypeInt, if_neg hne, if_neg hne']
    exact decodeCore_zero_pad k cs

/-- Witness for C7 at a three-row collection: the 94305 cell survives,
the zero-padded 00501 parses to 501 and is dropped, and 10001 is
dropped; the padding equation is instantiated at one leading zero before
94305. -/
theorem C7_witness :
    normalizeZips geoRowsW = some nrowsW ∧
    (filterToRegistry geoRowsW =
      some (nrowsW.filter (fun gz => zipList.contains gz.2)) ∧
     astypeInt (List.replicate 1 '0' ++ ['9', '4', '3', '0', '5']) =
       astypeInt ['9', '4', '3', '0', '5']) :=
  ⟨by decide,
   ⟨(C7_registry_filter_exact geoRowsW nrowsW (by decide)).1,
    (C7_registry_filter_exact geoRowsW nrowsW (by decide)).2.2 1 ['9', '4', '3', '0', '5']
      (by decide)⟩⟩

/-- Claim C8, confirmed.  The artifact rows are a permutation of the
derived ten-column rows (the `OutRow` structure carries exactly the
columns city, zip, NAME, total_pop_25plus, pct_bachelor, pct_master,
pct_professional, pct_doctorate, pct_bachelor_or_higher,
pct_no_bachelors), and, as the identifiers are five-digit codes, the
rows come out sorted by parent city name (code-point lexicographic, the
pandas string order) with the numeric identifier as tie-break. -/
theorem C8_artifact_columns_sorted (recs : List AreaRecord)
    (hz : ∀ r ∈ recs, r.zcta < 100000) :
    (buildOut recs).Perm (recs.map deriveOut) ∧
    (buildOut recs).Pairwise (fun r s =>
      (r.city = s.city ∧ r.zip ≤ s.zip) ∨
      (r.city ≠ s.city ∧ lexLE r.city.data s.city.data = true)) := by
  constructor
  · exact List.perm_insertionSort outRel _
  · have hsorted : (buildOut recs).Pairwise outRel :=
      @List.sorted_insertionSort OutRow outRel _ ⟨outRel_total⟩ ⟨outRel_trans⟩
        (recs.map deriveOut)
    refine List.Pairwise.imp_of_mem ?_ hsorted
    intro a b ha hb hab
    have hbound : ∀ c : OutRow, c ∈ buildOut recs → c.zip < 100000 := by
      intro c hc
      have hc' : c ∈ recs.map deriveOut :=
        (List.perm_insertionSort outRel _).mem_iff.mp hc
      rcases List.mem_map.mp hc' with ⟨rec, hrec, rfl⟩
      simpa [deriveOut] using hz rec hrec
    unfold outRel outLE at hab
    by_cases hc : a.city.data = b.city.data
    · left
      refine ⟨string_data_inj hc, ?_⟩
      rw [if_pos hc] at hab
      exact (zipLEb_iff (hbound a ha) (hbound b hb)).mp hab
    · right
      refine ⟨fun he => hc (congrArg String.data he), ?_⟩
      rw [if_neg hc] at hab
      exact hab

/-- Witness for C8 at two records whose cities arrive out of order. -/
theorem C8_witness :
    (∀ r ∈ sortRecs, r.zcta < 100000) ∧
    ((buildOut sortRecs).Perm (sortRecs.map deriveOut) ∧
     (buildOut sortRecs).Pairwise (fun r s =>
       (r.city = s.city ∧ r.zip ≤ s.zip) ∨
       (r.city ≠ s.city ∧ lexLE r.city.data s.city.data = true))) :=
  ⟨by decide, C8_artifact_columns_sorted sortRecs (by decide)⟩

/-- Claim C9, corrected.  The fetcher issues exactly one query per
registry identifier (each registry identifier is queried once and
nothing else is queried), but in ascending numeric identifier order (the
queried list is sorted), not in the order identifiers appear in the
registry: `zip_list` is built with sorted().  See the counterexample for
the order discrepancy. -/
theorem C9_one_query_per_id_sorted (fetch : Nat → Except String AcsResp) :
    (fetchLoop fetch zipList).queried = zipList ∧
    zipList.Pairwise (· ≤ ·) ∧
    (∀ z ∈ registryIds, zipList.count z = 1) ∧
    (∀ z ∈ zipList, z ∈ registryIds) :=
  ⟨fetchLoop_queried fetch zipList, by decide, by decide, by decide⟩

/-- Witness for C9 at a concrete fetch oracle. -/
theorem C9_witness :
    (fetchLoop constFetch zipList).queried = zipList ∧
    zipList.Pairwise (· ≤ ·) :=
  ⟨(C9_one_query_per_id_sorted constFetch).1, (C9_one_query_per_id_sorted constFetch).2.1⟩

/-- Counterexample to C9 as stated: the queried order differs from the
registry appearance order; the first query goes to 94022 while the first
registry identifier is 95110. -/
theorem C9_counterexample :
    (fetchLoop constFetch zipList).queried ≠ registryIds ∧
    ((fetchLoop constFetch zipList).queried).head? = some 94022 ∧
    registryIds.head? = some 95110 := by decide

end SouthBayEducation
